import Mathlib

/-
Verification of the udp_sas_mio extension adapter (src/src/lib.rs).

The crate is a thin extension trait over mio::net::UdpSocket delegating to the
udp_sas primitives (send_sas, recv_sas, set_pktinfo).  The adapter code in
lib.rs is embedded here directly; the underlying primitives are oracles
(arbitrary result values or functions), since their code is outside this
repository.  For the end-to-end datagram properties a small network-state
model of the underlying primitives is added, modelled from the spec.
-/

namespace UdpSasMio

/-- IP address, IPv4 or IPv6; the numeric payload abstracts the raw bytes. -/
inductive IpAddr where
  | V4 (a : Nat)
  | V6 (a : Nat)
deriving DecidableEq

/-- Family test mirroring std::net::IpAddr::is_ipv4. -/
def IpAddr.is_ipv4 : IpAddr → Bool
  | .V4 _ => true
  | .V6 _ => false

/-- Socket address: IP address plus port, mirroring std::net::SocketAddr. -/
structure SocketAddr where
  ip : IpAddr
  port : Nat
deriving DecidableEq

/-- Family test mirroring SocketAddr::is_ipv4 (delegates to the IP). -/
def SocketAddr.is_ipv4 (a : SocketAddr) : Bool :=
  a.ip.is_ipv4

/-- The error kinds the adapter distinguishes: std::io::ErrorKind restricted
to the kinds relevant here, with Other standing for every OS-level kind. -/
inductive ErrorKind where
  | InvalidData
  | WouldBlock
  | Other
deriving DecidableEq

/-- std::io::Error as the adapter observes it: a kind and a message. -/
structure IoError where
  kind : ErrorKind
  msg : String
deriving DecidableEq

/-- The message of the error built in the (None, _) match arm of recv_sas
(lib.rs line 204), verbatim. -/
def localNotAvailableMsg : String :=
  "local address not available (IP_PKTINFO/IPV6_RECVPKTINFO may not be enabled on the socket)"

/-- The message of the error built in the (_, None) match arm of recv_sas
(lib.rs line 207), verbatim. -/
def sourceNotAvailableMsg : String :=
  "source address not available (maybe the socket is connected)"

/-- libc::AF_INET. -/
def AF_INET : Int := 2

/-- libc::AF_INET6. -/
def AF_INET6 : Int := 10

/-- A mio::net::UdpSocket as the adapter uses it: only its raw descriptor is
consulted (as_raw_fd). -/
structure UdpSocketHandle where
  fd : Int
deriving DecidableEq

/-- Result of bind_sas: Ok, an io::Error, or a panic (the .unwrap() on
local_addr() in lib.rs line 176 can panic, which Except cannot express). -/
inductive Outcome (A : Type) where
  | ok (value : A)
  | err (e : IoError)
  | panicked
deriving DecidableEq

/-- UdpSas::bind_sas for UdpSocket (lib.rs lines 174-186).  The three
underlying calls are oracles: bindResult is what UdpSocket::bind(addr)
returned, local_addr what sock.local_addr() returns, set_pktinfo what
udp_sas::set_pktinfo(fd, family) returns.  The source unwraps local_addr,
so a failure there is a panic, not an error return. -/
def bind_sas (bindResult : Except IoError UdpSocketHandle)
    (local_addr : UdpSocketHandle → Except IoError SocketAddr)
    (set_pktinfo : Int → Int → Except IoError Unit) :
    Outcome UdpSocketHandle :=
  match bindResult with
  | .error e => .err e
  | .ok sock =>
    match local_addr sock with
    | .error _ => .panicked
    | .ok bound =>
      match set_pktinfo sock.fd (if bound.is_ipv4 then AF_INET else AF_INET6) with
      | .error e => .err e
      | .ok _ => .ok sock

/-- UdpSas::send_sas for UdpSocket (lib.rs lines 188-194): the underlying
udp_sas::send_sas primitive (oracle send_prim, taking the raw fd, the buffer
and optional target/source) is invoked with Some(target) and Some(local). -/
def send_sas
    (send_prim : Int → List Nat → Option SocketAddr → Option IpAddr → Except IoError Nat)
    (sock : UdpSocketHandle) (buf : List Nat) (target : SocketAddr) (localIp : IpAddr) :
    Except IoError Nat :=
  send_prim sock.fd buf (some target) (some localIp)

/-- UdpSas::recv_sas for UdpSocket (lib.rs lines 196-212): underlying is what
udp_sas::recv_sas(fd, buf) returned, (nb, src, local) with src the peer socket
address and local the destination IP address decoded from ancillary data.
The match arms, their order and their messages follow the source verbatim. -/
def recv_sas
    (underlying : Except IoError (Nat × Option SocketAddr × Option IpAddr)) :
    Except IoError (Nat × SocketAddr × IpAddr) :=
  match underlying with
  | .error e => .error e
  | .ok (nb, src, localIp) =>
    match src, localIp with
    | some s, some l => .ok (nb, s, l)
    | none, _ => .error ⟨.InvalidData, localNotAvailableMsg⟩
    | _, none => .error ⟨.InvalidData, sourceNotAvailableMsg⟩

/-- C1: the code at the failing inputs.  When the underlying receive succeeds
with the peer (source) slot empty, recv_sas returns the InvalidData error
whose message speaks of the local address and IP_PKTINFO/IPV6_RECVPKTINFO;
when only the local (destination) slot is empty it returns the InvalidData
error whose message speaks of the source address.  This is the opposite
pairing of the claim (and of the spec): the two messages are swapped. -/
theorem recv_sas_messages_swapped :
    recv_sas (.ok (4, none, some (IpAddr.V4 2130706433)))
      = .error ⟨.InvalidData, localNotAvailableMsg⟩ ∧
    recv_sas (.ok (4, some ⟨IpAddr.V4 2130706433, 30012⟩, none))
      = .error ⟨.InvalidData, sourceNotAvailableMsg⟩ ∧
    localNotAvailableMsg ≠ sourceNotAvailableMsg := by
  refine ⟨rfl, rfl, ?_⟩
  intro h
  simp [localNotAvailableMsg, sourceNotAvailableMsg] at h

/-- C9: when the underlying receive reports neither a peer address nor a local
address, recv_sas returns the error of the (None, _) match arm, the one whose
message mentions IP_PKTINFO/IPV6_RECVPKTINFO: the peer-address slot is checked
before the local-address slot. -/
theorem recv_sas_none_none_precedence (nb : Nat) :
    recv_sas (.ok (nb, none, none))
      = .error ⟨.InvalidData,
          "local address not available (IP_PKTINFO/IPV6_RECVPKTINFO may not be enabled on the socket)"⟩ :=
  rfl

/-- C4: recv_sas returns Ok((nb, peer, local)) exactly when the underlying
receive succeeded with both the peer and the local address present, and the
three components are passed through unchanged; it succeeds in no other case. -/
theorem recv_sas_pass_through
    (r : Except IoError (Nat × Option SocketAddr × Option IpAddr)) :
    (∀ nb s l, r = .ok (nb, some s, some l) → recv_sas r = .ok (nb, s, l)) ∧
    (∀ nb s l, recv_sas r = .ok (nb, s, l) → r = .ok (nb, some s, some l)) := by
  constructor
  · intro nb s l h
    subst h
    rfl
  · intro nb s l h
    match r with
    | .error e => simp [recv_sas] at h
    | .ok (nb0, none, l0) => simp [recv_sas] at h
    | .ok (nb0, some s0, none) => simp [recv_sas] at h
    | .ok (nb0, some s0, some l0) =>
      simp [recv_sas] at h
      obtain ⟨h1, h2, h3⟩ := h
      subst h1; subst h2; subst h3
      rfl

/-- C5: send_sas is exactly the underlying source-address-selecting primitive
invoked on the socket's raw descriptor with Some(target) and Some(local): for
every primitive, socket, buffer, target and local address the two results are
equal, so no plain send is ever issued and the byte count or error comes back
unchanged. -/
theorem send_sas_is_pass_through
    (send_prim : Int → List Nat → Option SocketAddr → Option IpAddr → Except IoError Nat)
    (sock : UdpSocketHandle) (buf : List Nat) (target : SocketAddr) (localIp : IpAddr) :
    send_sas send_prim sock buf target localIp
      = send_prim sock.fd buf (some target) (some localIp) :=
  rfl

/-- C3: bind_sas binds (oracle bindResult), derives the family from the bound
local address (AF_INET exactly when it is IPv4, AF_INET6 otherwise), enables
the one family-appropriate packet-info option on the raw descriptor, and
returns the socket; it returns the underlying error whenever the bind or the
option call fails. -/
theorem bind_sas_correct
    (bindResult : Except IoError UdpSocketHandle)
    (local_addr : UdpSocketHandle → Except IoError SocketAddr)
    (set_pktinfo : Int → Int → Except IoError Unit) :
    (∀ e, bindResult = .error e →
      bind_sas bindResult local_addr set_pktinfo = .err e) ∧
    (∀ sock bound, bindResult = .ok sock → local_addr sock = .ok bound →
      bound.is_ipv4 = true → set_pktinfo sock.fd AF_INET = .ok () →
      bind_sas bindResult local_addr set_pktinfo = .ok sock) ∧
    (∀ sock bound, bindResult = .ok sock → local_addr sock = .ok bound →
      bound.is_ipv4 = false → set_pktinfo sock.fd AF_INET6 = .ok () →
      bind_sas bindResult local_addr set_pktinfo = .ok sock) ∧
    (∀ sock bound e, bindResult = .ok sock → local_addr sock = .ok bound →
      set_pktinfo sock.fd (if bound.is_ipv4 then AF_INET else AF_INET6) = .error e →
      bind_sas bindResult local_addr set_pktinfo = .err e) := by
  refine ⟨?_, ?_, ?_, ?_⟩
  · intro e h
    subst h
    rfl
  · intro sock bound hb hla h4 hok
    subst hb
    simp [bind_sas, hla, h4, hok]
  · intro sock bound hb hla h6 hok
    subst hb
    simp [bind_sas, hla, h6, hok]
  · intro sock bound e hb hla herr
    subst hb
    simp [bind_sas, hla] at herr ⊢
    rw [herr]

/-- C2 amended part: bind_sas panics exactly when the bind itself succeeded
and the query of the bound local address then failed (the .unwrap() in lib.rs
line 176); with any other oracle outcome it returns Ok or an error value. -/
theorem bind_sas_panic_iff
    (bindResult : Except IoError UdpSocketHandle)
    (local_addr : UdpSocketHandle → Except IoError SocketAddr)
    (set_pktinfo : Int → Int → Except IoError Unit) :
    bind_sas bindResult local_addr set_pktinfo = .panicked ↔
      ∃ sock, bindResult = .ok sock ∧ ∃ e, local_addr sock = .error e := by
  constructor
  · intro h
    match hb : bindResult with
    | .error e => simp [bind_sas] at h
    | .ok sock =>
      refine ⟨sock, rfl, ?_⟩
      match hla : local_addr sock with
      | .error e => exact ⟨e, rfl⟩
      | .ok bound =>
        simp [bind_sas, hla] at h
        rcases hsp : set_pktinfo sock.fd (if bound.is_ipv4 then AF_INET else AF_INET6) with e | u
        · rw [hsp] at h; simp at h
        · rw [hsp] at h; simp at h
  · rintro ⟨sock, hb, e, hla⟩
    subst hb
    simp [bind_sas, hla]

/-- Oracle bind result for the C2 counterexample: the bind succeeds with
descriptor 3. -/
def cexBindResult : Except IoError UdpSocketHandle :=
  .ok ⟨3⟩

/-- Oracle local_addr for the C2 counterexample: querying the bound local
address fails with an OS error. -/
def cexLocalAddr (_ : UdpSocketHandle) : Except IoError SocketAddr :=
  .error ⟨.Other, "getsockname failed"⟩

/-- Oracle set_pktinfo for the C2 counterexample: the option call would
succeed. -/
def cexSetPktinfo (_ : Int) (_ : Int) : Except IoError Unit :=
  .ok ()

/-- C2 counterexample: with a successful bind whose local-address query fails,
bind_sas ends in a panic (the .unwrap() in lib.rs line 176) and in particular
returns no error value to the caller, contradicting the claim that every
failure, including a failure to query the bound local address, is returned as
an error. -/
theorem bind_sas_panics_on_local_addr_failure :
    bind_sas cexBindResult cexLocalAddr cexSetPktinfo = .panicked ∧
    ∀ e, bind_sas cexBindResult cexLocalAddr cexSetPktinfo ≠ .err e := by
  constructor
  · rfl
  · intro e h
    simp [bind_sas, cexBindResult, cexLocalAddr, cexSetPktinfo] at h

/-- C3 witness: a concrete successful IPv4 bind: the bound address 127.0.0.1
is IPv4, the AF_INET packet-info option call succeeds, and the socket comes
back. -/
theorem bind_sas_correct_witness :
    bind_sas (.ok ⟨3⟩) (fun _ => .ok ⟨IpAddr.V4 2130706433, 30012⟩)
        (fun _ _ => .ok ())
      = .ok ⟨3⟩ :=
  (bind_sas_correct (.ok ⟨3⟩) (fun _ => .ok ⟨IpAddr.V4 2130706433, 30012⟩)
      (fun _ _ => .ok ())).2.1
    ⟨3⟩ ⟨IpAddr.V4 2130706433, 30012⟩ rfl rfl rfl rfl

/-- C2 witness: the panic characterization at the concrete counterexample
oracles: with that failing local-address query, bind_sas panicking is
equivalent to the query having failed after a successful bind. -/
theorem bind_sas_panic_iff_witness :
    bind_sas cexBindResult cexLocalAddr cexSetPktinfo = .panicked ↔
      ∃ sock, cexBindResult = .ok sock ∧ ∃ e, cexLocalAddr sock = .error e :=
  bind_sas_panic_iff cexBindResult cexLocalAddr cexSetPktinfo

/-- C4 witness: a concrete underlying success with both addresses present is
passed through unchanged. -/
theorem recv_sas_pass_through_witness :
    recv_sas (.ok (4, some ⟨IpAddr.V4 2130706433, 40000⟩, some (IpAddr.V4 2130706433)))
      = .ok (4, ⟨IpAddr.V4 2130706433, 40000⟩, IpAddr.V4 2130706433) :=
  (recv_sas_pass_through
      (.ok (4, some ⟨IpAddr.V4 2130706433, 40000⟩, some (IpAddr.V4 2130706433)))).1
    4 ⟨IpAddr.V4 2130706433, 40000⟩ (IpAddr.V4 2130706433) rfl

/-- C6: every error of an underlying call comes back to the immediate caller
unchanged, kind and message included, with no retry or suppression: a failing
bind or option call gives exactly that error from bind_sas, a failing send
primitive gives exactly that error from send_sas, a failing receive primitive
(a would-block condition included) gives exactly that error from recv_sas. -/
theorem errors_propagate_unchanged (e : IoError) :
    (∀ local_addr set_pktinfo,
      bind_sas (.error e) local_addr set_pktinfo = .err e) ∧
    (∀ bindResult local_addr set_pktinfo sock bound,
      bindResult = .ok sock → local_addr sock = .ok bound →
      set_pktinfo sock.fd (if bound.is_ipv4 then AF_INET else AF_INET6) = .error e →
      bind_sas bindResult local_addr set_pktinfo = .err e) ∧
    (∀ send_prim sock buf target localIp,
      send_prim sock.fd buf (some target) (some localIp) = .error e →
      send_sas send_prim sock buf target localIp = .error e) ∧
    (recv_sas (.error e) = .error e) ∧
    (∀ msg, recv_sas (.error ⟨.WouldBlock, msg⟩) = .error ⟨.WouldBlock, msg⟩) := by
  refine ⟨fun _ _ => rfl, ?_, ?_, rfl, fun _ => rfl⟩
  · intro bindResult local_addr set_pktinfo sock bound hb hla herr
    subst hb
    simp [bind_sas, hla] at herr ⊢
    rw [herr]
  · intro send_prim sock buf target localIp herr
    exact herr

/-- C6 witness: a concrete would-block error from the underlying receive is
returned by recv_sas unchanged, kind and message intact. -/
theorem errors_propagate_unchanged_witness :
    recv_sas (.error ⟨.WouldBlock, "operation would block"⟩)
      = .error ⟨.WouldBlock, "operation would block"⟩ :=
  (errors_propagate_unchanged ⟨.WouldBlock, "operation would block"⟩).2.2.2.1

/-- C7: send_sas does no address-family validation of its own: even when the
family of the local source address differs from the family of the target, the
call is forwarded to the underlying primitive unmodified, so any mixed-family
rejection is the primitive's result, not this layer's. -/
theorem send_sas_no_family_validation
    (send_prim : Int → List Nat → Option SocketAddr → Option IpAddr → Except IoError Nat)
    (sock : UdpSocketHandle) (buf : List Nat) (target : SocketAddr) (localIp : IpAddr)
    (_hmix : localIp.is_ipv4 ≠ target.ip.is_ipv4) :
    send_sas send_prim sock buf target localIp
      = send_prim sock.fd buf (some target) (some localIp) :=
  rfl

/-- A concrete underlying send primitive for the C7 witness: it rejects a
mixed-family pair, as the underlying transport would. -/
def mixPrim (_ : Int) (_ : List Nat) (target : Option SocketAddr)
    (source : Option IpAddr) : Except IoError Nat :=
  match target, source with
  | some t, some s =>
    if s.is_ipv4 = t.ip.is_ipv4 then .ok 4
    else .error ⟨.Other, "invalid argument"⟩
  | _, _ => .ok 4

/-- C7 witness: a concrete mixed-family call (IPv6 source, IPv4 target) is
still forwarded unchanged to the underlying primitive. -/
theorem send_sas_no_family_validation_witness :
    send_sas mixPrim ⟨3⟩ [112, 105, 110, 103] ⟨IpAddr.V4 2130706433, 30012⟩ (IpAddr.V6 1)
      = mixPrim 3 [112, 105, 110, 103] (some ⟨IpAddr.V4 2130706433, 30012⟩)
          (some (IpAddr.V6 1)) :=
  send_sas_no_family_validation mixPrim ⟨3⟩ [112, 105, 110, 103]
    ⟨IpAddr.V4 2130706433, 30012⟩ (IpAddr.V6 1) (by decide)

/-- Modelled from the spec: a UDP datagram in flight, carrying its payload,
the peer endpoint it came from (source address as selected by the sender) and
the endpoint it was sent to (whose IP the kernel reports as the destination
address via packet-info ancillary data). -/
structure Datagram where
  payload : List Nat
  src : SocketAddr
  dst : SocketAddr
deriving DecidableEq

/-- Modelled from the spec: the state the kernel keeps for one receiving
socket, a FIFO queue of datagrams pending delivery. -/
structure NetState where
  queue : List Datagram
deriving DecidableEq

/-- Modelled from the spec: a socket as the underlying udp_sas primitives see
it: raw descriptor, bound address, whether the family-appropriate packet-info
option was enabled (spec 4.2), and whether the socket is in connected mode
(spec 4.3: a connected socket reports no peer address). -/
structure NetSocket where
  fd : Int
  addr : SocketAddr
  pktinfoEnabled : Bool
  connected : Bool
deriving DecidableEq

/-- Modelled from the spec: udp_sas::send_sas (spec 4.3 send), whose code is
in the external udp_sas crate.  With a source address given, the kernel uses
it as the outgoing source; without one the bound address stands.  The
datagram is appended to the target state's queue and the full payload length
is accepted (UDP sends are atomic-or-failed). -/
def sys_send_sas (sender : NetSocket) (st : NetState) (buf : List Nat)
    (target : Option SocketAddr) (source : Option IpAddr) :
    NetState × Except IoError Nat :=
  match target with
  | none => (st, .error ⟨.Other, "destination address required"⟩)
  | some tgt =>
    let srcEndpoint : SocketAddr :=
      match source with
      | some s => ⟨s, sender.addr.port⟩
      | none => sender.addr
    (⟨st.queue ++ [⟨buf, srcEndpoint, tgt⟩]⟩, .ok buf.length)

/-- Modelled from the spec: what one call of udp_sas::recv_sas (spec 4.3
receive) leaves behind: the socket state, the caller's buffer and the
result triple. -/
structure RecvOutput where
  state : NetState
  buffer : List Nat
  result : Except IoError (Nat × Option SocketAddr × Option IpAddr)

/-- Modelled from the spec: udp_sas::recv_sas (spec 4.3 receive), whose code
is in the external udp_sas crate.  With no datagram pending it would block;
otherwise the head datagram is consumed, its payload is written into the
caller's buffer (truncated to the buffer's capacity), the byte count is
returned, the peer endpoint is reported unless the socket is connected, and
the destination IP is reported exactly when packet-info reporting is
enabled. -/
def sys_recv_sas (sock : NetSocket) (st : NetState) (buf : List Nat) :
    RecvOutput :=
  match st.queue with
  | [] => ⟨st, buf, .error ⟨.WouldBlock, "operation would block"⟩⟩
  | d :: rest =>
    ⟨⟨rest⟩, d.payload.take buf.length ++ buf.drop d.payload.length,
      .ok (min d.payload.length buf.length,
        if sock.connected then none else some d.src,
        if sock.pktinfoEnabled then some d.dst.ip else none)⟩

/-- The lib.rs 174-186 adapter over the modelled network: in the success path
bind_sas yields a socket bound to addr with packet-info reporting enabled and
not connected. -/
def net_bind_sas (addr : SocketAddr) (fd : Int) : NetSocket :=
  ⟨fd, addr, true, false⟩

/-- The lib.rs 188-194 adapter over the modelled network: udp_sas::send_sas
invoked with Some(target) and Some(localIp). -/
def net_send_sas (sender : NetSocket) (st : NetState) (buf : List Nat)
    (target : SocketAddr) (localIp : IpAddr) : NetState × Except IoError Nat :=
  sys_send_sas sender st buf (some target) (some localIp)

/-- The lib.rs 196-212 adapter over the modelled network: the underlying
receive runs first (its state and buffer effects stand whatever follows),
then the match on the two optional addresses, arms and messages verbatim as
in recv_sas above. -/
def net_recv_sas (sock : NetSocket) (st : NetState) (buf : List Nat) :
    NetState × List Nat × Except IoError (Nat × SocketAddr × IpAddr) :=
  let out := sys_recv_sas sock st buf
  match out.result with
  | .error e => (out.state, out.buffer, .error e)
  | .ok (nb, src, localIp) =>
    match src, localIp with
    | some s, some l => (out.state, out.buffer, .ok (nb, s, l))
    | none, _ => (out.state, out.buffer, .error ⟨.InvalidData, localNotAvailableMsg⟩)
    | _, none => (out.state, out.buffer, .error ⟨.InvalidData, sourceNotAvailableMsg⟩)

/-- C8: round-trip addressing over the modelled network.  A receiver created
by bind_sas on the wildcard address, sent to by a peer that used send_sas
with source address a1 (targeting the receiver at that same
loopback-equivalent address), gets from recv_sas exactly the payload length
as byte count, the peer endpoint, and a1 — never the wildcard — as the local
address, with byte-for-byte content equality of the payload. -/
theorem round_trip_addressing (sender : NetSocket) (a1 : IpAddr)
    (wild : SocketAddr) (rcvPort : Nat) (fd : Int) (payload buf : List Nat)
    (hfit : payload.length ≤ buf.length) (hwild : a1 ≠ wild.ip) :
    (net_send_sas sender ⟨[]⟩ payload ⟨a1, rcvPort⟩ a1).2 = .ok payload.length ∧
    (net_recv_sas (net_bind_sas wild fd)
        (net_send_sas sender ⟨[]⟩ payload ⟨a1, rcvPort⟩ a1).1 buf).2.2
      = .ok (payload.length, ⟨a1, sender.addr.port⟩, a1) ∧
    (net_recv_sas (net_bind_sas wild fd)
        (net_send_sas sender ⟨[]⟩ payload ⟨a1, rcvPort⟩ a1).1 buf).2.1.take payload.length
      = payload ∧
    a1 ≠ wild.ip := by
  have h1 : payload.take buf.length = payload := List.take_of_length_le hfit
  refine ⟨rfl, ?_, ?_, hwild⟩
  · simp [net_send_sas, sys_send_sas, net_recv_sas, sys_recv_sas, net_bind_sas,
      Nat.min_eq_left hfit]
  · have h2 : (net_recv_sas (net_bind_sas wild fd)
        (net_send_sas sender ⟨[]⟩ payload ⟨a1, rcvPort⟩ a1).1 buf).2.1
      = payload.take buf.length ++ buf.drop payload.length := rfl
    rw [h2, h1]
    exact List.take_left payload (buf.drop payload.length)

/-- C8 witness: the spec scenario at concrete values: payload "ping" sent
from 127.0.0.1 to a receiver bound to the wildcard 0.0.0.0 is received with
byte count 4, the peer endpoint, and local address 127.0.0.1. -/
theorem round_trip_addressing_witness :
    (net_send_sas ⟨4, ⟨IpAddr.V4 2130706433, 40000⟩, true, false⟩ ⟨[]⟩
        [112, 105, 110, 103] ⟨IpAddr.V4 2130706433, 30012⟩ (IpAddr.V4 2130706433)).2
      = .ok (List.length [112, 105, 110, 103]) ∧
    (net_recv_sas (net_bind_sas ⟨IpAddr.V4 0, 30012⟩ 5)
        (net_send_sas ⟨4, ⟨IpAddr.V4 2130706433, 40000⟩, true, false⟩ ⟨[]⟩
          [112, 105, 110, 103] ⟨IpAddr.V4 2130706433, 30012⟩ (IpAddr.V4 2130706433)).1
        [0, 0, 0, 0, 0, 0, 0, 0]).2.2
      = .ok (List.length [112, 105, 110, 103], ⟨IpAddr.V4 2130706433, 40000⟩,
          IpAddr.V4 2130706433) ∧
    (net_recv_sas (net_bind_sas ⟨IpAddr.V4 0, 30012⟩ 5)
        (net_send_sas ⟨4, ⟨IpAddr.V4 2130706433, 40000⟩, true, false⟩ ⟨[]⟩
          [112, 105, 110, 103] ⟨IpAddr.V4 2130706433, 30012⟩ (IpAddr.V4 2130706433)).1
        [0, 0, 0, 0, 0, 0, 0, 0]).2.1.take (List.length [112, 105, 110, 103])
      = [112, 105, 110, 103] ∧
    IpAddr.V4 2130706433 ≠ (⟨IpAddr.V4 0, 30012⟩ : SocketAddr).ip :=
  round_trip_addressing ⟨4, ⟨IpAddr.V4 2130706433, 40000⟩, true, false⟩
    (IpAddr.V4 2130706433) ⟨IpAddr.V4 0, 30012⟩ 30012 5
    [112, 105, 110, 103] [0, 0, 0, 0, 0, 0, 0, 0] (by decide) (by decide)

/-- C10: the missing-metadata errors of recv_sas are not atomic.  On a socket
without packet-info reporting, with a datagram pending, the adapter returns
an InvalidData error, yet the underlying receive has already run: the
datagram is consumed from the queue and its payload has been written into the
caller's buffer, while the byte count and the available peer address appear
nowhere in the returned error.  With no datagram pending no InvalidData error
arises: the underlying would-block error is returned and the state and buffer
are untouched. -/
theorem recv_sas_metadata_error_not_atomic (sock : NetSocket) (st : NetState)
    (buf : List Nat) (d : Datagram) (rest : List Datagram)
    (hq : st.queue = d :: rest) (hpk : sock.pktinfoEnabled = false)
    (hco : sock.connected = false) :
    net_recv_sas sock st buf
      = (⟨rest⟩, d.payload.take buf.length ++ buf.drop d.payload.length,
          .error ⟨.InvalidData, sourceNotAvailableMsg⟩) ∧
    net_recv_sas sock ⟨[]⟩ buf
      = (⟨[]⟩, buf, .error ⟨.WouldBlock, "operation would block"⟩) := by
  constructor
  · simp [net_recv_sas, sys_recv_sas, hq, hpk, hco]
  · rfl

/-- C10 witness: a concrete socket with packet-info reporting disabled and a
pending "ping" datagram: recv_sas errors with InvalidData, yet the queue is
drained and the payload sits in the buffer. -/
theorem recv_sas_metadata_error_not_atomic_witness :
    net_recv_sas ⟨7, ⟨IpAddr.V4 0, 30012⟩, false, false⟩
        ⟨[⟨[112, 105, 110, 103], ⟨IpAddr.V4 2130706433, 40000⟩,
          ⟨IpAddr.V4 2130706433, 30012⟩⟩]⟩ [0, 0, 0, 0, 0, 0]
      = (⟨[]⟩,
          List.take (List.length [0, 0, 0, 0, 0, 0]) [112, 105, 110, 103]
            ++ List.drop (List.length [112, 105, 110, 103]) [0, 0, 0, 0, 0, 0],
          .error ⟨.InvalidData, sourceNotAvailableMsg⟩) ∧
    net_recv_sas ⟨7, ⟨IpAddr.V4 0, 30012⟩, false, false⟩ ⟨[]⟩ [0, 0, 0, 0, 0, 0]
      = (⟨[]⟩, [0, 0, 0, 0, 0, 0], .error ⟨.WouldBlock, "operation would block"⟩) :=
  recv_sas_metadata_error_not_atomic ⟨7, ⟨IpAddr.V4 0, 30012⟩, false, false⟩
    ⟨[⟨[112, 105, 110, 103], ⟨IpAddr.V4 2130706433, 40000⟩,
      ⟨IpAddr.V4 2130706433, 30012⟩⟩]⟩ [0, 0, 0, 0, 0, 0]
    ⟨[112, 105, 110, 103], ⟨IpAddr.V4 2130706433, 40000⟩,
      ⟨IpAddr.V4 2130706433, 30012⟩⟩ [] rfl rfl rfl

end UdpSasMio
